import Mathlib

/-
  Verification development for the cms workforce-compliance repository.

  The definitions below are a shallow embedding of the JavaScript source:

  * src/models/Task.js           — scheduled-entry ledger (seeding, submit helpers)
  * src/routes/tasks.js          — POST /api/tasks/submit-update (window table, lines 505-596)
  * src/cron/taskUpdateCron.js   — warning / escalation sweeps (sendWarnings, escalateMissed)
  * src/routes/attendance.js     — punch-in / punch-out / break routes
  * src/models/Attendance.js     — calculateWorkSummary and the attendance schema

  Machine integers do not appear (all JS arithmetic here stays far below 2^53),
  so times are modelled as Int (milliseconds) or Nat (minutes since midnight)
  and fractional results as Rat.  JS Math.round(x) is Mathlib round (both are
  floor (x + 1/2)).  Mongoose pre-save hooks are inlined at each save site.
  The pre-save hook of Task.js that sorts scheduledEntries by time is omitted:
  it permutes the entry list without changing any entry, and every property
  below is stated per entry / per slot, never about list order.
-/

namespace CMS

/-- Status enum of a scheduled entry (src/models/Task.js lines 25-29). -/
inductive EntryStatus
  | pending
  | submitted
  | warning_sent
  | escalated
deriving DecidableEq

/-- One scheduled entry of the task ledger (src/models/Task.js lines 19-44).
The submittedAt timestamp is the minutes-since-midnight value supplied by the
clock at submit time. -/
structure ScheduledEntry where
  scheduledTime : String
  status : EntryStatus
  description : String
  submittedAt : Option Nat
deriving DecidableEq

/-- A per-user per-day task document (src/models/Task.js). -/
structure TaskDoc where
  scheduledEntries : List ScheduledEntry
deriving DecidableEq

def colonStr : String := ":"

def emptyStr : String := ""

def slot1030 : String := "10:30"

def slot1200 : String := "12:00"

def slot1330 : String := "13:30"

def slot1600 : String := "16:00"

def slot1730 : String := "17:30"

/-- The canonical slot table (src/models/Task.js line 96). -/
def scheduledTimes : List String := [slot1030, slot1200, slot1330, slot1600, slot1730]

def charDigit (c : Char) : Nat := c.toNat - 48

def digitsToNat (cs : List Char) : Nat := cs.foldl (fun a c => 10 * a + charDigit c) 0

/-- Split a character list at the first colon. -/
def splitAtColon : List Char → List Char × List Char
  | [] => ([], [])
  | c :: rest =>
    if c = ':' then ([], rest)
    else
      let p := splitAtColon rest
      (c :: p.1, p.2)

/-- parseInt of the two components of an HH:MM string, combined into
minutes since midnight (src/models/Task.js lines 97-99 and 103-105). -/
def parseMinutes (s : String) : Nat :=
  let p := splitAtColon s.toList
  60 * digitsToNat p.1 + digitsToNat p.2

/-- A fresh pending entry as pushed by createScheduledEntries
(src/models/Task.js lines 110-118). -/
def freshEntry (s : String) : ScheduledEntry :=
  { scheduledTime := s, status := EntryStatus.pending,
    description := emptyStr, submittedAt := none }

/-- Task.createScheduledEntries (src/models/Task.js lines 95-121): filter the
canonical slots to those strictly after the punch-in time and push a pending
entry for each. -/
def createScheduledEntries (t : TaskDoc) (punchInTime : String) : TaskDoc :=
  let punchInMinutes := parseMinutes punchInTime
  let remainingTimes := scheduledTimes.filter (fun s => punchInMinutes < parseMinutes s)
  { t with scheduledEntries := t.scheduledEntries ++ remainingTimes.map freshEntry }

/-- Task.createTaskWithPunchIn (src/models/Task.js lines 201-226): if a task
document already exists for the day its entries are cleared, otherwise a new
empty document is created; then entries are recreated from the punch-in time. -/
def createTaskWithPunchIn (existing : Option TaskDoc) (punchInTime : String) : TaskDoc :=
  let base : TaskDoc :=
    match existing with
    | some t => { t with scheduledEntries := [] }
    | none => { scheduledEntries := [] }
  createScheduledEntries base punchInTime

/-- In-place mutation of the first list element satisfying p, as performed by
Array.prototype.find followed by field assignment in the routes and cron jobs. -/
def updateFirst (p : α → Bool) (f : α → α) : List α → List α
  | [] => []
  | a :: l => if p a then f a :: l else a :: updateFirst p f l

/-- The first entry of the ledger for a slot, as located by
scheduledEntries.find(e => e.scheduledTime === slot). -/
def entryAt (slot : String) (t : TaskDoc) : Option ScheduledEntry :=
  t.scheduledEntries.find? (fun e => decide (e.scheduledTime = slot))

/-- Error outcomes of POST /api/tasks/submit-update
(src/routes/tasks.js lines 543-575). -/
inductive SubmitErr
  | outOfWindow
  | notFound
  | alreadyEscalated
  | alreadySubmitted
deriving DecidableEq

/-- The acceptance-window table of POST /api/tasks/submit-update
(src/routes/tasks.js lines 516-540): an if/else chain on minutes since
midnight selecting the target slot, or none. -/
def resolveSlot (now : Nat) : Option String :=
  if now < 11 * 60 then some slot1030
  else if 11 * 60 + 30 ≤ now ∧ now ≤ 12 * 60 + 30 then some slot1200
  else if 13 * 60 ≤ now ∧ now ≤ 14 * 60 then some slot1330
  else if 15 * 60 + 30 ≤ now ∧ now ≤ 16 * 60 + 30 then some slot1600
  else if 17 * 60 ≤ now ∧ now ≤ 17 * 60 + 30 then some slot1730
  else none

/-- The entry mutation performed on a successful submit
(src/routes/tasks.js lines 577-582). -/
def submitEntry (now : Nat) (description : String) (e : ScheduledEntry) : ScheduledEntry :=
  { e with status := EntryStatus.submitted,
           description := description.trim,
           submittedAt := some now }

/-- POST /api/tasks/submit-update on one task document
(src/routes/tasks.js lines 505-596): resolve the slot from the window table,
locate the entry, reject terminal entries, otherwise mark it submitted with
the trimmed description.  An error return leaves the stored document unchanged
(the route responds before any mutation). -/
def submitUpdateRoute (t : TaskDoc) (now : Nat) (description : String) :
    Except SubmitErr TaskDoc :=
  match resolveSlot now with
  | none => Except.error SubmitErr.outOfWindow
  | some slot =>
    match entryAt slot t with
    | none => Except.error SubmitErr.notFound
    | some entry =>
      if entry.status = EntryStatus.escalated then Except.error SubmitErr.alreadyEscalated
      else if entry.status = EntryStatus.submitted then Except.error SubmitErr.alreadySubmitted
      else
        let es2 := updateFirst (fun e => decide (e.scheduledTime = slot))
          (submitEntry now description) t.scheduledEntries
        Except.ok { t with scheduledEntries := es2 }

/-- Per-task effect of the warning sweep (src/cron/taskUpdateCron.js lines
199-217): the first entry at the slot still pending is marked warning_sent. -/
def sendWarningsTask (slot : String) (t : TaskDoc) : TaskDoc :=
  let es2 := updateFirst (fun e => decide (e.scheduledTime = slot ∧ e.status = EntryStatus.pending))
    (fun e => { e with status := EntryStatus.warning_sent }) t.scheduledEntries
  { t with scheduledEntries := es2 }

/-- Per-task effect of the escalation sweep (src/cron/taskUpdateCron.js lines
253-271): the first entry at the slot in warning_sent is marked escalated.
Entries still pending are not selected by the query or the find. -/
def escalateMissedTask (slot : String) (t : TaskDoc) : TaskDoc :=
  let es2 := updateFirst (fun e => decide (e.scheduledTime = slot ∧ e.status = EntryStatus.warning_sent))
    (fun e => { e with status := EntryStatus.escalated }) t.scheduledEntries
  { t with scheduledEntries := es2 }

/-- Cron trigger minute of the warning sweep for each canonical slot
(src/cron/taskUpdateCron.js lines 54-80: 10:40, 12:10, 13:40, 16:10, 17:40). -/
def warnTriggerMinutes (slot : String) : Nat :=
  if slot = slot1030 then 10 * 60 + 40
  else if slot = slot1200 then 12 * 60 + 10
  else if slot = slot1330 then 13 * 60 + 40
  else if slot = slot1600 then 16 * 60 + 10
  else if slot = slot1730 then 17 * 60 + 40
  else 0

/-- Cron trigger minute of the escalation sweep for each canonical slot
(src/cron/taskUpdateCron.js lines 93-119: 10:50, 12:20, 13:50, 16:20, 17:50). -/
def escalateTriggerMinutes (slot : String) : Nat :=
  if slot = slot1030 then 10 * 60 + 50
  else if slot = slot1200 then 12 * 60 + 20
  else if slot = slot1330 then 13 * 60 + 50
  else if slot = slot1600 then 16 * 60 + 20
  else if slot = slot1730 then 17 * 60 + 50
  else 0

/-- One persisted ledger row swept by the cron jobs, together with the health
of its storage: saveOk is false when task.save() would throw for this row. -/
structure LedgerRow where
  task : TaskDoc
  saveOk : Bool
deriving DecidableEq

/-- Whether a task has an entry at the slot with the given status — the
condition under which the sweep loop calls task.save() for the row. -/
def taskHasEntry (slot : String) (st : EntryStatus) (t : TaskDoc) : Bool :=
  t.scheduledEntries.any (fun e => decide (e.scheduledTime = slot ∧ e.status = st))

/-- Persisted effect of one sweep pass over the rows, following the
try/for/await-save/catch structure of sendWarnings and escalateMissed
(src/cron/taskUpdateCron.js lines 179-227 and 233-281): rows are visited in
order; a row whose save fails throws out of the for loop into the single
function-level catch, so the failing row keeps its old persisted state and
every later row is left untouched for this pass. -/
def sweepRun (affected : TaskDoc → Bool) (f : TaskDoc → TaskDoc) :
    List LedgerRow → List LedgerRow
  | [] => []
  | r :: rest =>
    if affected r.task then
      if r.saveOk then { r with task := f r.task } :: sweepRun affected f rest
      else r :: rest
    else r :: sweepRun affected f rest

/-- TaskUpdateCron.sendWarnings over all rows of the day
(src/cron/taskUpdateCron.js lines 179-227). -/
def sendWarningsSweep (slot : String) (rows : List LedgerRow) : List LedgerRow :=
  sweepRun (taskHasEntry slot EntryStatus.pending) (sendWarningsTask slot) rows

/-- TaskUpdateCron.escalateMissed over all rows of the day
(src/cron/taskUpdateCron.js lines 233-281). -/
def escalateMissedSweep (slot : String) (rows : List LedgerRow) : List LedgerRow :=
  sweepRun (taskHasEntry slot EntryStatus.warning_sent) (escalateMissedTask slot) rows

/-- The exposed ledger operations of claim C3: a user submit and the two
sweep passes.  A rejected submit leaves the document unchanged. -/
inductive LOp
  | submit (now : Nat) (description : String)
  | warn (slot : String)
  | escalate (slot : String)

/-- Persisted effect of one exposed ledger operation on one task document. -/
def applyLOp (t : TaskDoc) : LOp → TaskDoc
  | LOp.submit now description =>
    match submitUpdateRoute t now description with
    | Except.ok t2 => t2
    | Except.error _ => t
  | LOp.warn slot => sendWarningsTask slot t
  | LOp.escalate slot => escalateMissedTask slot t

example : parseMinutes slot1030 = 630 := by decide

example : parseMinutes slot1730 = 1050 := by decide

example : resolveSlot 659 = some slot1030 := by decide

example : resolveSlot 660 = none := by decide

/-
  Attendance model.  Timestamps are milliseconds since the midnight that
  starts the user's day (the routes normalise `today` to 00:00 and build
  the 9:00 / 18:00 standards from it).  JS Math.round is Mathlib round.
-/

/-- Math.round on a rational, as used for all minute arithmetic. -/
def jsRound (q : ℚ) : ℤ := round q

/-- Math.round(x * 100) / 100, the two-decimal rounding used for hours
and durations. -/
def round2 (q : ℚ) : ℚ := ((round (q * 100) : ℤ) : ℚ) / 100

def msPerMinute : ℤ := 60000

/-- 9:00 AM standard start (src/routes/attendance.js line 87). -/
def standardStartMs : ℤ := 9 * 60 * msPerMinute

/-- 6:00 PM standard end (src/routes/attendance.js line 234). -/
def standardEndMs : ℤ := 18 * 60 * msPerMinute

/-- Check-in half of a session (src/models/Attendance.js sessionSchema).
withinRadius records the gpsValidation result stored at punch-in. -/
structure CheckIn where
  time : ℤ
  isLate : Bool
  lateMinutes : ℤ
  withinRadius : Bool
deriving DecidableEq

/-- Check-out half of a session (src/models/Attendance.js sessionSchema). -/
structure CheckOut where
  time : ℤ
  isEarly : Bool
  earlyMinutes : ℤ
deriving DecidableEq

/-- One work session; checkOut is none while the session is open. -/
structure Session where
  checkIn : CheckIn
  checkOut : Option CheckOut
  duration : ℚ
deriving DecidableEq

/-- One break; endTime is none while the break is ongoing. -/
structure BreakRec where
  startTime : ℤ
  endTime : Option ℤ
  duration : ℚ
deriving DecidableEq

/-- Derived work summary (src/models/Attendance.js workSummary). -/
structure WorkSummary where
  totalHours : ℚ
  totalBreakTime : ℤ
  effectiveHours : ℚ
  overtime : ℚ
  undertime : ℚ
deriving DecidableEq

/-- Day status enum (src/unnamed/part_013 ATTENDANCE_STATUS); partialDay
stands for the source string naming a partial day. -/
inductive AttStatus
  | present
  | partialDay
deriving DecidableEq

inductive WorkLocation
  | office
  | home
deriving DecidableEq

/-- Per-user per-day attendance record (src/models/Attendance.js). -/
structure AttendanceRecord where
  sessions : List Session
  breaks : List BreakRec
  workSummary : WorkSummary
  status : AttStatus
  workLocation : WorkLocation
deriving DecidableEq

/-- session.checkIn?.time && !session.checkOut?.time for one session. -/
def isOpenSession (s : Session) : Bool := s.checkOut.isNone

/-- The active-session check shared by the routes
(src/routes/attendance.js lines 55-57, 202-204, 328-330). -/
def hasActiveSession (sessions : List Session) : Bool :=
  sessions.any isOpenSession

def isOpenBreak (b : BreakRec) : Bool := b.endTime.isNone

/-- Sum of Math.round((endTime - startTime) / 60000) over completed breaks
(src/models/Attendance.js totalBreakDuration virtual, lines 234-241). -/
def totalBreakDuration (breaks : List BreakRec) : ℤ :=
  breaks.foldl
    (fun acc b =>
      match b.endTime with
      | some e => acc + jsRound (((e - b.startTime : ℤ) : ℚ) / 60000)
      | none => acc) 0

/-- Attendance.calculateWorkSummary (src/models/Attendance.js lines 255-292). -/
def calculateWorkSummary (sessions : List Session) (breaks : List BreakRec) : WorkSummary :=
  if sessions.isEmpty then
    { totalHours := 0, totalBreakTime := 0, effectiveHours := 0, overtime := 0, undertime := 0 }
  else
    let totalWorkMinutes : ℤ := sessions.foldl
      (fun acc s =>
        match s.checkOut with
        | some c => acc + jsRound (((c.time - s.checkIn.time : ℤ) : ℚ) / 60000)
        | none => acc) 0
    let totalBreakMinutes := totalBreakDuration breaks
    let totalHours := round2 ((totalWorkMinutes : ℚ) / 60)
    let effectiveHours := round2 (((totalWorkMinutes - totalBreakMinutes : ℤ) : ℚ) / 60)
    let difference := effectiveHours - 8
    if 0 < difference then
      { totalHours := totalHours, totalBreakTime := totalBreakMinutes,
        effectiveHours := effectiveHours, overtime := round2 difference, undertime := 0 }
    else
      { totalHours := totalHours, totalBreakTime := totalBreakMinutes,
        effectiveHours := effectiveHours, overtime := 0, undertime := round2 (abs difference) }

/-- Error outcomes of the attendance routes. -/
inductive AttErr
  | activeSessionExists
  | noPunchInRecord
  | noActiveSession
  | mustBePunchedIn
  | ongoingBreakExists
  | noAttendanceRecord
  | noOngoingBreak
deriving DecidableEq

/-- The session pushed at punch-in (src/routes/attendance.js lines 1866-1892):
late fields measured against the 9:00 standard start, gpsValidation recording
whether the submitted coordinate was within 1000 m of the office. -/
def newPunchInSession (now : ℤ) (withinRadius : Bool) : Session :=
  let isLate := decide (standardStartMs < now)
  { checkIn :=
      { time := now, isLate := isLate,
        lateMinutes := if isLate then jsRound (((now - standardStartMs : ℤ) : ℚ) / 60000) else 0,
        withinRadius := withinRadius }
    checkOut := none
    duration := 0 }

/-- POST /api/attendance/punch-in (src/routes/attendance.js lines 1793-1954,
the GPS-validating variant; the active-session guard is identical in the
variant at lines 14-153).  distanceInMeters is the value calculateDistance
returns for the submitted coordinate; the great-circle formula itself is
floating-point trigonometry and enters the model only through this value.
Creating a record runs the pre-save summary hook; appending to an existing
record uses findByIdAndUpdate, which does not. -/
def punchIn (st : Option AttendanceRecord) (now : ℤ) (distanceInMeters : ℚ) :
    Except AttErr AttendanceRecord :=
  let hasActive :=
    match st with
    | some a => hasActiveSession a.sessions
    | none => false
  if hasActive then Except.error AttErr.activeSessionExists
  else
    let withinRadius := decide (distanceInMeters ≤ 1000)
    let isFirstCheckIn :=
      match st with
      | none => true
      | some a => a.sessions.isEmpty
    let workLocation :=
      if isFirstCheckIn && !withinRadius then WorkLocation.home
      else
        match st with
        | some a => a.workLocation
        | none => WorkLocation.office
    let s := newPunchInSession now withinRadius
    match st with
    | some a => Except.ok { a with sessions := a.sessions ++ [s], workLocation := workLocation }
    | none =>
      Except.ok
        { sessions := [s], breaks := [],
          workSummary := calculateWorkSummary [s] [],
          status := AttStatus.present, workLocation := workLocation }

/-- The check-out stamp and duration written by punch-out
(src/routes/attendance.js lines 213-239): early fields measured against the
6:00 PM standard end, duration rounded to two decimals in minutes. -/
def closeSession (now : ℤ) (s : Session) : Session :=
  let isEarly := decide (now < standardEndMs)
  { s with
      checkOut := some
        { time := now, isEarly := isEarly,
          earlyMinutes := if isEarly then jsRound (((standardEndMs - now : ℤ) : ℚ) / 60000) else 0 }
      duration := round2 (((now - s.checkIn.time : ℤ) : ℚ) / 60000) }

/-- The record written by a successful punch-out
(src/routes/attendance.js lines 213-255): the first open session is stamped,
the work summary recomputed, and the day status set from the 8-hour threshold
on effectiveHours. -/
def punchOutRecord (a : AttendanceRecord) (now : ℤ) : AttendanceRecord :=
  let sessions2 := updateFirst isOpenSession (closeSession now) a.sessions
  let ws := calculateWorkSummary sessions2 a.breaks
  let status := if 8 ≤ ws.effectiveHours then AttStatus.present else AttStatus.partialDay
  { a with sessions := sessions2, workSummary := ws, status := status }

/-- POST /api/attendance/punch-out (src/routes/attendance.js lines 158-282):
reject when no record / no open session; otherwise write punchOutRecord. -/
def punchOut (st : Option AttendanceRecord) (now : ℤ) :
    Except AttErr AttendanceRecord :=
  match st with
  | none => Except.error AttErr.noPunchInRecord
  | some a =>
    if a.sessions.isEmpty then Except.error AttErr.noPunchInRecord
    else if !hasActiveSession a.sessions then Except.error AttErr.noActiveSession
    else Except.ok (punchOutRecord a now)

/-- POST /api/attendance/break-start (src/routes/attendance.js lines 287-374):
requires a record with an open session and no ongoing break, then pushes an
open break.  The save triggers the pre-save summary hook. -/
def breakStart (st : Option AttendanceRecord) (now : ℤ) :
    Except AttErr AttendanceRecord :=
  match st with
  | none => Except.error AttErr.mustBePunchedIn
  | some a =>
    if a.sessions.isEmpty then Except.error AttErr.mustBePunchedIn
    else if !hasActiveSession a.sessions then Except.error AttErr.mustBePunchedIn
    else if a.breaks.any isOpenBreak then Except.error AttErr.ongoingBreakExists
    else
      let breaks2 := a.breaks ++ [{ startTime := now, endTime := none, duration := 0 }]
      Except.ok { a with breaks := breaks2,
                         workSummary := calculateWorkSummary a.sessions breaks2 }

/-- POST /api/attendance/break-end (src/routes/attendance.js lines 379-447):
requires a record with an ongoing break; closes the first one and recomputes
the summary.  No open session is required. -/
def breakEnd (st : Option AttendanceRecord) (now : ℤ) :
    Except AttErr AttendanceRecord :=
  match st with
  | none => Except.error AttErr.noAttendanceRecord
  | some a =>
    if !a.breaks.any isOpenBreak then Except.error AttErr.noOngoingBreak
    else
      let close : BreakRec → BreakRec := fun b =>
        { b with endTime := some now,
                 duration := round2 (((now - b.startTime : ℤ) : ℚ) / 60000) }
      let breaks2 := updateFirst isOpenBreak close a.breaks
      Except.ok { a with breaks := breaks2,
                         workSummary := calculateWorkSummary a.sessions breaks2 }

/-- The four attendance operations of claims C6 and C7, with the clock value
and the GPS distance as inputs. -/
inductive AttOp
  | pIn (now : ℤ) (dist : ℚ)
  | pOut (now : ℤ)
  | bStart (now : ℤ)
  | bEnd (now : ℤ)

/-- Persisted effect of one attendance operation: a rejected request leaves
the stored record unchanged. -/
def attStep (st : Option AttendanceRecord) : AttOp → Option AttendanceRecord
  | AttOp.pIn now dist =>
    match punchIn st now dist with
    | Except.ok a => some a
    | Except.error _ => st
  | AttOp.pOut now =>
    match punchOut st now with
    | Except.ok a => some a
    | Except.error _ => st
  | AttOp.bStart now =>
    match breakStart st now with
    | Except.ok a => some a
    | Except.error _ => st
  | AttOp.bEnd now =>
    match breakEnd st now with
    | Except.ok a => some a
    | Except.error _ => st

/-- State of a user-day after a sequence of attendance requests, starting
from no record. -/
def attRun (ops : List AttOp) : Option AttendanceRecord :=
  ops.foldl attStep none

def openSessionCount (a : AttendanceRecord) : Nat :=
  a.sessions.countP isOpenSession

def openBreakCount (a : AttendanceRecord) : Nat :=
  a.breaks.countP isOpenBreak

example :
    (attRun [AttOp.pIn 0 0, AttOp.bStart 1, AttOp.pOut 2]).elim false
      (fun a => !hasActiveSession a.sessions && a.breaks.any isOpenBreak) = true := by
  decide

/- Generic facts about updateFirst, the shared in-place mutation pattern. -/

theorem updateFirst_length (p : α → Bool) (f : α → α) (l : List α) :
    (updateFirst p f l).length = l.length := by
  induction l with
  | nil => rfl
  | cons b l ih =>
    simp only [updateFirst]
    split
    · simp
    · simp [ih]

theorem updateFirst_getElem?_of_not (p : α → Bool) (f : α → α) (l : List α) (i : Nat) (a : α)
    (hget : l[i]? = some a) (hp : p a = false) :
    (updateFirst p f l)[i]? = some a := by
  induction l generalizing i with
  | nil => simp at hget
  | cons b l ih =>
    cases i with
    | zero =>
      rw [List.getElem?_cons_zero] at hget
      cases hget
      simp only [updateFirst]
      rw [if_neg (by simp [hp])]
      exact List.getElem?_cons_zero
    | succ n =>
      rw [List.getElem?_cons_succ] at hget
      simp only [updateFirst]
      split
      · rw [List.getElem?_cons_succ]
        exact hget
      · rw [List.getElem?_cons_succ]
        exact ih n hget

theorem updateFirst_getElem?_changes (p : α → Bool) (f : α → α) (l : List α) (i : Nat)
    (h : (updateFirst p f l)[i]? ≠ l[i]?) :
    ∃ a, l[i]? = some a ∧ p a = true ∧
      (updateFirst p f l)[i]? = some (f a) ∧ l.find? p = some a := by
  induction l generalizing i with
  | nil => simp [updateFirst] at h
  | cons b l ih =>
    by_cases hb : p b
    · cases i with
      | zero =>
        refine ⟨b, List.getElem?_cons_zero, hb, ?_, List.find?_cons_of_pos _ hb⟩
        simp only [updateFirst]
        rw [if_pos hb]
        exact List.getElem?_cons_zero
      | succ n =>
        exfalso
        apply h
        simp only [updateFirst]
        rw [if_pos hb, List.getElem?_cons_succ, List.getElem?_cons_succ]
    · cases i with
      | zero =>
        exfalso
        apply h
        simp only [updateFirst]
        rw [if_neg hb, List.getElem?_cons_zero, List.getElem?_cons_zero]
      | succ n =>
        have hne : (updateFirst p f l)[n]? ≠ l[n]? := by
          intro heq
          apply h
          simp only [updateFirst]
          rw [if_neg hb, List.getElem?_cons_succ, List.getElem?_cons_succ]
          exact heq
        obtain ⟨a, h1, h2, h3, h4⟩ := ih n hne
        refine ⟨a, by rw [List.getElem?_cons_succ]; exact h1, h2, ?_,
          by rw [List.find?_cons_of_neg _ hb]; exact h4⟩
        simp only [updateFirst]
        rw [if_neg hb, List.getElem?_cons_succ]
        exact h3

theorem updateFirst_find? (p : α → Bool) (f : α → α) (l : List α) (a : α)
    (h : l.find? p = some a) :
    ∃ i : Nat, l[i]? = some a ∧ (updateFirst p f l)[i]? = some (f a) := by
  induction l with
  | nil => simp at h
  | cons b l ih =>
    by_cases hb : p b
    · rw [List.find?_cons_of_pos _ hb] at h
      cases h
      refine ⟨0, List.getElem?_cons_zero, ?_⟩
      simp only [updateFirst]
      rw [if_pos hb]
      exact List.getElem?_cons_zero
    · rw [List.find?_cons_of_neg _ hb] at h
      obtain ⟨i, h1, h2⟩ := ih h
      refine ⟨i + 1, by rw [List.getElem?_cons_succ]; exact h1, ?_⟩
      simp only [updateFirst]
      rw [if_neg hb, List.getElem?_cons_succ]
      exact h2

theorem countP_updateFirst_le (p : α → Bool) (f : α → α) (l : List α)
    (hf : ∀ x, p (f x) = false) :
    (updateFirst p f l).countP p ≤ l.countP p := by
  induction l with
  | nil => simp [updateFirst]
  | cons b l ih =>
    by_cases hb : p b
    · simp only [updateFirst]
      rw [if_pos hb]
      rw [List.countP_cons_of_neg _ _ (by simp [hf]), List.countP_cons_of_pos _ _ hb]
      omega
    · simp only [updateFirst]
      rw [if_neg hb]
      rw [List.countP_cons_of_neg _ _ hb, List.countP_cons_of_neg _ _ hb]
      exact ih

theorem countP_updateFirst_of_any (p : α → Bool) (f : α → α) (l : List α)
    (hf : ∀ x, p (f x) = false) (h : l.any p = true) :
    (updateFirst p f l).countP p + 1 = l.countP p := by
  induction l with
  | nil => simp at h
  | cons b l ih =>
    by_cases hb : p b
    · simp only [updateFirst]
      rw [if_pos hb]
      rw [List.countP_cons_of_neg _ _ (by simp [hf]), List.countP_cons_of_pos _ _ hb]
    · simp only [updateFirst]
      rw [if_neg hb]
      rw [List.countP_cons_of_neg _ _ hb, List.countP_cons_of_neg _ _ hb]
      apply ih
      simpa [hb] using h

/- Concrete fixtures used by counterexamples and witnesses. -/

def descDone : String := "standup done"

def punch0900 : String := "09:00"

def punch1100 : String := "11:00"

def entrySubmitted1030 : ScheduledEntry :=
  { scheduledTime := slot1030, status := EntryStatus.submitted,
    description := descDone, submittedAt := some 652 }

def taskC1 : TaskDoc := { scheduledEntries := [entrySubmitted1030] }

def entryPending1030 : ScheduledEntry :=
  { scheduledTime := slot1030, status := EntryStatus.pending,
    description := emptyStr, submittedAt := none }

def taskC2 : TaskDoc := { scheduledEntries := [entryPending1030] }

def entryEscalated1030 : ScheduledEntry :=
  { scheduledTime := slot1030, status := EntryStatus.escalated,
    description := emptyStr, submittedAt := none }

def taskC5 : TaskDoc := { scheduledEntries := [entryEscalated1030] }

def entryWarned1030 : ScheduledEntry :=
  { scheduledTime := slot1030, status := EntryStatus.warning_sent,
    description := emptyStr, submittedAt := none }

def taskC10 : TaskDoc := { scheduledEntries := [entryWarned1030] }

/-- C1, counterexample.  Task.createTaskWithPunchIn is not idempotent: run
again for a user-day whose 10:30 entry was already submitted, it clears the
whole entry list and reseeds, so the submitted status and stored description
are lost (re-seeded pending with empty description), and with a punch-in time
of 11:00 the 10:30 entry is deleted outright.  This falsifies the no-op /
never-deletes part of the claim. -/
theorem c1_reseed_clears_entries :
    createTaskWithPunchIn (some taskC1) punch0900 ≠ taskC1 ∧
    (entryAt slot1030 (createTaskWithPunchIn (some taskC1) punch0900)).map
      (fun e => e.status) = some EntryStatus.pending ∧
    (entryAt slot1030 (createTaskWithPunchIn (some taskC1) punch0900)).map
      (fun e => e.description) = some emptyStr ∧
    entryAt slot1030 (createTaskWithPunchIn (some taskC1) punch1100) = none := by
  decide

/-- C1, amended.  After createTaskWithPunchIn for any prior state, the entry
list is exactly one fresh pending entry (empty description, no timestamp) per
canonical slot strictly later than the punch-in time, with no duplicate slots.
So a single invocation seeds correctly and never duplicates, but a repeat
invocation is a full reset of the day rather than a no-op: it depends only on
the new punch-in time, not on the existing entries. -/
theorem c1_amended_seed_exact (existing : Option TaskDoc) (p : String) :
    (createTaskWithPunchIn existing p).scheduledEntries =
      (scheduledTimes.filter (fun s => parseMinutes p < parseMinutes s)).map freshEntry ∧
    ((createTaskWithPunchIn existing p).scheduledEntries.map
      (fun e => e.scheduledTime)).Nodup ∧
    ∀ e ∈ (createTaskWithPunchIn existing p).scheduledEntries,
      e.status = EntryStatus.pending ∧ e.description = emptyStr ∧ e.submittedAt = none := by
  have heq : (createTaskWithPunchIn existing p).scheduledEntries =
      (scheduledTimes.filter (fun s => parseMinutes p < parseMinutes s)).map freshEntry := by
    cases existing <;> simp [createTaskWithPunchIn, createScheduledEntries]
  refine ⟨heq, ?_, ?_⟩
  · rw [heq, List.map_map]
    have hmap : (fun e => ScheduledEntry.scheduledTime e) ∘ freshEntry = id := by
      funext s
      rfl
    rw [hmap, List.map_id]
    exact (List.filter_sublist _).nodup (by decide)
  · intro e he
    rw [heq] at he
    obtain ⟨s, _, rfl⟩ := List.mem_map.mp he
    exact ⟨rfl, rfl, rfl⟩

/-- C2, counterexample.  The escalation pass never escalates an entry that is
still pending: escalateMissedTask selects only warning_sent entries, so at the
10:50 trigger (exactly 20 minutes past the 10:30 slot, satisfying the
elapsed ≥ 20 / status ∈ pending-or-warning_sent condition of the claim) a
pending 10:30 entry is left pending instead of becoming escalated. -/
theorem c2_escalation_skips_pending :
    escalateMissedTask slot1030 taskC2 = taskC2 ∧
    (entryAt slot1030 (escalateMissedTask slot1030 taskC2)).map
      (fun e => e.status) = some EntryStatus.pending ∧
    escalateTriggerMinutes slot1030 = parseMinutes slot1030 + 20 := by
  decide

/-- C2, amended.  The warning pass moves the first pending entry of the slot
to warning_sent and touches nothing else; the escalation pass moves the first
warning_sent entry of the slot to escalated and touches nothing else — in
particular a still-pending entry is not escalated, and submitted or escalated
entries are never modified by either pass.  The cron triggers fire the warning
pass 10 minutes and the escalation pass 20 minutes after each canonical slot. -/
theorem c2_amended_sweep_transitions (slot : String) (t : TaskDoc) :
    (∀ e, t.scheduledEntries.find?
        (fun x => decide (x.scheduledTime = slot ∧ x.status = EntryStatus.pending)) = some e →
      ∃ i : Nat, t.scheduledEntries[i]? = some e ∧
        (sendWarningsTask slot t).scheduledEntries[i]? =
          some { e with status := EntryStatus.warning_sent }) ∧
    (∀ e, t.scheduledEntries.find?
        (fun x => decide (x.scheduledTime = slot ∧ x.status = EntryStatus.warning_sent)) = some e →
      ∃ i : Nat, t.scheduledEntries[i]? = some e ∧
        (escalateMissedTask slot t).scheduledEntries[i]? =
          some { e with status := EntryStatus.escalated }) ∧
    (∀ (i : Nat) (e : ScheduledEntry), t.scheduledEntries[i]? = some e →
      e.status ≠ EntryStatus.warning_sent →
      (escalateMissedTask slot t).scheduledEntries[i]? = some e) ∧
    (∀ (i : Nat) (e : ScheduledEntry), t.scheduledEntries[i]? = some e →
      e.status ≠ EntryStatus.pending →
      (sendWarningsTask slot t).scheduledEntries[i]? = some e) ∧
    (∀ s ∈ scheduledTimes, warnTriggerMinutes s = parseMinutes s + 10 ∧
      escalateTriggerMinutes s = parseMinutes s + 20) := by
  refine ⟨?_, ?_, ?_, ?_, by decide⟩
  · intro e hfind
    exact updateFirst_find? _ _ _ _ hfind
  · intro e hfind
    exact updateFirst_find? _ _ _ _ hfind
  · intro i e hget hstatus
    exact updateFirst_getElem?_of_not _ _ _ _ _ hget (by simp [hstatus])
  · intro i e hget hstatus
    exact updateFirst_getElem?_of_not _ _ _ _ _ hget (by simp [hstatus])

/-- C2 amended, witness: the warning pass at the 10:30 slot moves the concrete
pending entry to warning_sent. -/
theorem c2_amended_sweep_transitions_witness :
    ∃ i : Nat, taskC2.scheduledEntries[i]? = some entryPending1030 ∧
      (sendWarningsTask slot1030 taskC2).scheduledEntries[i]? =
        some { entryPending1030 with status := EntryStatus.warning_sent } :=
  (c2_amended_sweep_transitions slot1030 taskC2).1 entryPending1030 (by decide)

/-- C4.  The submit window table resolves a slot purely from minutes since
midnight: before 11:00 the 10:30 slot (so 10:59 = 659 is accepted), 11:30-12:30
inclusive the 12:00 slot, 13:00-14:00 the 13:30 slot, 15:30-16:30 the 16:00
slot, 17:00-17:30 the 17:30 slot; every other minute (including the 11:00
boundary) resolves no slot, and submit then fails OutOfWindow with the
document unchanged. -/
theorem c4_window_table (now : Nat) :
    (resolveSlot now = some slot1030 ↔ now < 660) ∧
    (resolveSlot now = some slot1200 ↔ 690 ≤ now ∧ now ≤ 750) ∧
    (resolveSlot now = some slot1330 ↔ 780 ≤ now ∧ now ≤ 840) ∧
    (resolveSlot now = some slot1600 ↔ 930 ≤ now ∧ now ≤ 990) ∧
    (resolveSlot now = some slot1730 ↔ 1020 ≤ now ∧ now ≤ 1050) ∧
    (resolveSlot now = none ↔
      ((660 ≤ now ∧ now ≤ 689) ∨ (751 ≤ now ∧ now ≤ 779) ∨ (841 ≤ now ∧ now ≤ 929) ∨
        (991 ≤ now ∧ now ≤ 1019) ∨ 1051 ≤ now)) ∧
    (resolveSlot now = none → ∀ (t : TaskDoc) (d : String),
      submitUpdateRoute t now d = Except.error SubmitErr.outOfWindow ∧
      applyLOp t (LOp.submit now d) = t) := by
  have d12 : slot1030 ≠ slot1200 := by decide
  have d13 : slot1030 ≠ slot1330 := by decide
  have d14 : slot1030 ≠ slot1600 := by decide
  have d15 : slot1030 ≠ slot1730 := by decide
  have d23 : slot1200 ≠ slot1330 := by decide
  have d24 : slot1200 ≠ slot1600 := by decide
  have d25 : slot1200 ≠ slot1730 := by decide
  have d34 : slot1330 ≠ slot1600 := by decide
  have d35 : slot1330 ≠ slot1730 := by decide
  have d45 : slot1600 ≠ slot1730 := by decide
  have d21 : slot1200 ≠ slot1030 := by decide
  have d31 : slot1330 ≠ slot1030 := by decide
  have d41 : slot1600 ≠ slot1030 := by decide
  have d51 : slot1730 ≠ slot1030 := by decide
  have d32 : slot1330 ≠ slot1200 := by decide
  have d42 : slot1600 ≠ slot1200 := by decide
  have d52 : slot1730 ≠ slot1200 := by decide
  have d43 : slot1600 ≠ slot1330 := by decide
  have d53 : slot1730 ≠ slot1330 := by decide
  have d54 : slot1730 ≠ slot1600 := by decide
  have hsub : resolveSlot now = none → ∀ (t : TaskDoc) (d : String),
      submitUpdateRoute t now d = Except.error SubmitErr.outOfWindow ∧
      applyLOp t (LOp.submit now d) = t := by
    intro hres t d
    have h1 : submitUpdateRoute t now d = Except.error SubmitErr.outOfWindow := by
      unfold submitUpdateRoute
      rw [hres]
    refine ⟨h1, ?_⟩
    simp only [applyLOp]
    rw [h1]
  refine ⟨?_, ?_, ?_, ?_, ?_, ?_, hsub⟩ <;>
    unfold resolveSlot <;>
    split_ifs with h1 h2 h3 h4 h5 <;>
    simp_all <;>
    omega

/-- C4, witness: 11:00 (minute 660) is outside every window, and submit at
that minute fails OutOfWindow leaving the document unchanged. -/
theorem c4_window_table_witness :
    submitUpdateRoute taskC2 660 emptyStr = Except.error SubmitErr.outOfWindow ∧
    applyLOp taskC2 (LOp.submit 660 emptyStr) = taskC2 :=
  (c4_window_table 660).2.2.2.2.2.2 (by decide) taskC2 emptyStr

/-- C5.  With a slot resolved from the window table: no entry for the slot
fails NotFound; an escalated entry fails StateConflict AlreadyEscalated; a
submitted entry fails StateConflict AlreadySubmitted; every failure leaves
the document unchanged; otherwise the located entry becomes submitted with
the trimmed description and the submission timestamp. -/
theorem c5_submit_outcomes (t : TaskDoc) (now : Nat) (slot : String) (d : String)
    (hres : resolveSlot now = some slot) :
    (entryAt slot t = none →
      submitUpdateRoute t now d = Except.error SubmitErr.notFound ∧
      applyLOp t (LOp.submit now d) = t) ∧
    (∀ e, entryAt slot t = some e →
      (e.status = EntryStatus.escalated →
        submitUpdateRoute t now d = Except.error SubmitErr.alreadyEscalated ∧
        applyLOp t (LOp.submit now d) = t) ∧
      (e.status = EntryStatus.submitted →
        submitUpdateRoute t now d = Except.error SubmitErr.alreadySubmitted ∧
        applyLOp t (LOp.submit now d) = t) ∧
      (e.status ≠ EntryStatus.escalated → e.status ≠ EntryStatus.submitted →
        ∃ t2, submitUpdateRoute t now d = Except.ok t2 ∧
          ∃ i : Nat, t.scheduledEntries[i]? = some e ∧
            t2.scheduledEntries[i]? = some (submitEntry now d e) ∧
            (submitEntry now d e).status = EntryStatus.submitted ∧
            (submitEntry now d e).description = d.trim ∧
            (submitEntry now d e).submittedAt = some now)) := by
  constructor
  · intro hnone
    have h1 : submitUpdateRoute t now d = Except.error SubmitErr.notFound := by
      simp only [submitUpdateRoute, hres, hnone]
    refine ⟨h1, ?_⟩
    simp only [applyLOp]
    rw [h1]
  · intro e he
    refine ⟨?_, ?_, ?_⟩
    · intro hstat
      have h1 : submitUpdateRoute t now d = Except.error SubmitErr.alreadyEscalated := by
        simp only [submitUpdateRoute, hres, he]
        simp [hstat]
      refine ⟨h1, ?_⟩
      simp only [applyLOp]
      rw [h1]
    · intro hstat
      have h1 : submitUpdateRoute t now d = Except.error SubmitErr.alreadySubmitted := by
        simp only [submitUpdateRoute, hres, he]
        simp [hstat]
      refine ⟨h1, ?_⟩
      simp only [applyLOp]
      rw [h1]
    · intro hne1 hne2
      have h1 : submitUpdateRoute t now d = Except.ok { t with scheduledEntries := updateFirst (fun x => decide (x.scheduledTime = slot)) (submitEntry now d) t.scheduledEntries } := by
        simp only [submitUpdateRoute, hres, he]
        simp only [if_neg hne1, if_neg hne2]
      refine ⟨_, h1, ?_⟩
      obtain ⟨i, hi1, hi2⟩ := updateFirst_find? _ (submitEntry now d) _ _ he
      exact ⟨i, hi1, hi2, rfl, rfl, rfl⟩

/-- C5, witness: at minute 655 (10:55) the 10:30 slot is resolved and the
concrete task's escalated entry makes submit fail AlreadyEscalated with the
document unchanged. -/
theorem c5_submit_outcomes_witness :
    submitUpdateRoute taskC5 655 descDone = Except.error SubmitErr.alreadyEscalated ∧
    applyLOp taskC5 (LOp.submit 655 descDone) = taskC5 :=
  ((c5_submit_outcomes taskC5 655 slot1030 descDone (by decide)).2
    entryEscalated1030 (by decide)).1 (by decide)

/-- C10.  A warning does not forfeit the slot: with the slot resolved and the
ledger's entry for it in warning_sent, submit succeeds and moves the entry to
submitted; and (entry present) submit is refused exactly when the entry is
already escalated or submitted. -/
theorem c10_warning_then_submit (t : TaskDoc) (now : Nat) (slot : String) (d : String)
    (e : ScheduledEntry) (hres : resolveSlot now = some slot) (he : entryAt slot t = some e) :
    (e.status = EntryStatus.warning_sent →
      ∃ t2, submitUpdateRoute t now d = Except.ok t2 ∧
        ∃ i : Nat, t.scheduledEntries[i]? = some e ∧
          t2.scheduledEntries[i]? = some (submitEntry now d e) ∧
          (submitEntry now d e).status = EntryStatus.submitted) ∧
    ((∃ err, submitUpdateRoute t now d = Except.error err) ↔
      (e.status = EntryStatus.escalated ∨ e.status = EntryStatus.submitted)) := by
  constructor
  · intro hstat
    have hne1 : e.status ≠ EntryStatus.escalated := by rw [hstat]; intro h; cases h
    have hne2 : e.status ≠ EntryStatus.submitted := by rw [hstat]; intro h; cases h
    obtain ⟨t2, h1, i, hi1, hi2, _, _, _⟩ :=
      ((c5_submit_outcomes t now slot d hres).2 e he).2.2 hne1 hne2
    exact ⟨t2, h1, i, hi1, hi2, rfl⟩
  · constructor
    · intro ⟨err, herr⟩
      by_cases hne1 : e.status = EntryStatus.escalated
      · exact Or.inl hne1
      · by_cases hne2 : e.status = EntryStatus.submitted
        · exact Or.inr hne2
        · exfalso
          obtain ⟨t2, h1, _⟩ := ((c5_submit_outcomes t now slot d hres).2 e he).2.2 hne1 hne2
          rw [h1] at herr
          cases herr
    · intro hstat
      cases hstat with
      | inl h =>
        exact ⟨SubmitErr.alreadyEscalated, (((c5_submit_outcomes t now slot d hres).2 e he).1 h).1⟩
      | inr h =>
        have h1 : submitUpdateRoute t now d = Except.error SubmitErr.alreadySubmitted := by
          simp only [submitUpdateRoute, hres, he]
          simp [h]
        exact ⟨SubmitErr.alreadySubmitted, h1⟩

/-- C10, witness: a warning_sent 10:30 entry submitted at 10:45 (minute 645)
succeeds and becomes submitted. -/
theorem c10_warning_then_submit_witness :
    ∃ t2, submitUpdateRoute taskC10 645 descDone = Except.ok t2 ∧
      ∃ i : Nat, taskC10.scheduledEntries[i]? = some entryWarned1030 ∧
        t2.scheduledEntries[i]? = some (submitEntry 645 descDone entryWarned1030) ∧
        (submitEntry 645 descDone entryWarned1030).status = EntryStatus.submitted :=
  (c10_warning_then_submit taskC10 645 slot1030 descDone entryWarned1030
    (by decide) (by decide)).1 rfl

/-- One exposed ledger operation never changes an entry whose status is
already submitted or escalated. -/
theorem applyLOp_preserves_terminal (t : TaskDoc) (op : LOp) (i : Nat) (e : ScheduledEntry)
    (hget : t.scheduledEntries[i]? = some e)
    (hterm : e.status = EntryStatus.submitted ∨ e.status = EntryStatus.escalated) :
    (applyLOp t op).scheduledEntries[i]? = some e := by
  cases op with
  | warn slot =>
    apply updateFirst_getElem?_of_not _ _ _ _ _ hget
    rcases hterm with h | h <;> simp [h]
  | escalate slot =>
    apply updateFirst_getElem?_of_not _ _ _ _ _ hget
    rcases hterm with h | h <;> simp [h]
  | submit now d =>
    simp only [applyLOp]
    cases hs : submitUpdateRoute t now d with
    | error err => exact hget
    | ok t2 =>
      simp only [submitUpdateRoute] at hs
      cases hres : resolveSlot now with
      | none =>
        rw [hres] at hs
        cases hs
      | some slot =>
        simp only [hres] at hs
        cases hent : entryAt slot t with
        | none =>
          simp only [hent] at hs
          cases hs
        | some entry =>
          simp only [hent] at hs
          by_cases hesc : entry.status = EntryStatus.escalated
          · rw [if_pos hesc] at hs
            cases hs
          · rw [if_neg hesc] at hs
            by_cases hsub : entry.status = EntryStatus.submitted
            · rw [if_pos hsub] at hs
              cases hs
            · rw [if_neg hsub] at hs
              cases hs
              by_cases hchg :
                  (updateFirst (fun x => decide (x.scheduledTime = slot))
                    (submitEntry now d) t.scheduledEntries)[i]? = t.scheduledEntries[i]?
              · rw [hchg, hget]
              · obtain ⟨a, ha1, _, _, ha4⟩ := updateFirst_getElem?_changes _ _ _ _ hchg
                rw [hget] at ha1
                cases ha1
                unfold entryAt at hent
                rw [ha4] at hent
                cases hent
                rcases hterm with h | h
                · exact absurd h hsub
                · exact absurd h hesc

/-- C3.  Along any sequence of exposed operations (submit, warning sweep,
escalation sweep), an entry that is submitted or escalated is never changed
again: the terminal statuses are absorbing. -/
theorem c3_terminal_absorbing (t : TaskDoc) (ops : List LOp) (i : Nat) (e : ScheduledEntry)
    (hget : t.scheduledEntries[i]? = some e)
    (hterm : e.status = EntryStatus.submitted ∨ e.status = EntryStatus.escalated) :
    (ops.foldl applyLOp t).scheduledEntries[i]? = some e := by
  induction ops generalizing t with
  | nil => exact hget
  | cons op ops ih =>
    exact ih (applyLOp t op) (applyLOp_preserves_terminal t op i e hget hterm)

/-- C3, witness: an escalated 10:30 entry survives a warning sweep, an
escalation sweep and a submit attempt unchanged. -/
theorem c3_terminal_absorbing_witness :
    ([LOp.warn slot1030, LOp.escalate slot1030, LOp.submit 645 descDone].foldl
      applyLOp taskC5).scheduledEntries[0]? = some entryEscalated1030 :=
  c3_terminal_absorbing taskC5 [LOp.warn slot1030, LOp.escalate slot1030,
    LOp.submit 645 descDone] 0 entryEscalated1030 (by decide) (Or.inr rfl)

def rowBad : LedgerRow := { task := taskC2, saveOk := false }

def rowGood : LedgerRow := { task := taskC2, saveOk := true }

/-- C8, counterexample.  A storage failure is caught only at the level of the
whole sweep (the single try/catch wraps the for loop), so it aborts the rest
of the pass: with the failing ledger first, the healthy ledger behind it is
not transitioned — its 10:30 entry stays pending although the claim requires
the sweep to still transition it. -/
theorem c8_sweep_abort :
    sendWarningsSweep slot1030 [rowBad, rowGood] = [rowBad, rowGood] ∧
    ((sendWarningsSweep slot1030 [rowBad, rowGood])[1]?).map
      (fun r => (entryAt slot1030 r.task).map (fun e => e.status)) =
      some (some EntryStatus.pending) := by
  decide

/-- C8, amended.  The failure is contained within the pass (the catch logs and
returns, nothing propagates to the scheduler or other slots), and rows visited
before the failing row keep their transitions; but the failing row and every
row after it are left untouched for this pass. -/
theorem c8_amended_prefix_isolation (affected : TaskDoc → Bool) (f : TaskDoc → TaskDoc)
    (pre : List LedgerRow) (bad : LedgerRow) (post : List LedgerRow)
    (hpre : ∀ r ∈ pre, r.saveOk = true) (hbad : bad.saveOk = false)
    (hb : affected bad.task = true) :
    sweepRun affected f (pre ++ bad :: post) =
      pre.map (fun r => if affected r.task then { r with task := f r.task } else r) ++
        bad :: post := by
  induction pre with
  | nil =>
    simp only [List.nil_append, List.map_nil, sweepRun]
    rw [if_pos hb, if_neg (by simp [hbad])]
  | cons r pre ih =>
    have hr : r.saveOk = true := hpre r (by simp)
    have hrest : ∀ x ∈ pre, x.saveOk = true := fun x hx => hpre x (by simp [hx])
    simp only [List.cons_append, sweepRun, List.map_cons, List.append_eq]
    by_cases ha : affected r.task
    · rw [if_pos ha, if_pos hr, ih hrest, if_pos ha]
    · rw [if_neg ha, ih hrest, if_neg ha]

/-- C8 amended, witness: with the healthy row first and the failing row
second, the warning sweep transitions the first row and leaves the failing
row untouched. -/
theorem c8_amended_prefix_isolation_witness :
    sweepRun (taskHasEntry slot1030 EntryStatus.pending) (sendWarningsTask slot1030)
      ([rowGood] ++ rowBad :: []) =
      [rowGood].map (fun r => if taskHasEntry slot1030 EntryStatus.pending r.task then { r with task := sendWarningsTask slot1030 r.task } else r) ++
        rowBad :: [] :=
  c8_amended_prefix_isolation (taskHasEntry slot1030 EntryStatus.pending)
    (sendWarningsTask slot1030) [rowGood] rowBad [] (by decide) (by decide) (by decide)

def c6Trace : List AttOp := [AttOp.pIn 0 0, AttOp.bStart 1, AttOp.pOut 2]

/-- C6, counterexample.  punch-in, break-start, punch-out is a valid request
sequence after which the record has no open session but still has an open
break: punch-out closes the session without ending the ongoing break, so the
claimed invariant that an open Break exists only while an open Session exists
is false. -/
theorem c6_open_break_outlives_session :
    (attRun c6Trace).elim false
      (fun a => !hasActiveSession a.sessions && a.breaks.any isOpenBreak) = true := by
  decide

/-- The state predicate that does hold: at most one open session and at most
one open break. -/
def attInv : Option AttendanceRecord → Prop
  | none => True
  | some a => openSessionCount a ≤ 1 ∧ openBreakCount a ≤ 1

theorem attStep_inv (st : Option AttendanceRecord) (op : AttOp) (h : attInv st) :
    attInv (attStep st op) := by
  cases op with
  | pIn now dist =>
    cases st with
    | none =>
      simp only [attStep, punchIn]
      simp [attInv, openSessionCount, openBreakCount, newPunchInSession, isOpenSession]
    | some a =>
      by_cases hact : hasActiveSession a.sessions
      · simp only [attStep, punchIn, hact]
        simpa using h
      · have hcount : openSessionCount a = 0 :=
          List.countP_eq_zero.mpr (fun s hs hps =>
            absurd (List.any_eq_true.mpr ⟨s, hs, hps⟩) hact)
        simp only [attStep, punchIn]
        rw [hasActiveSession] at hact
        simp only [Bool.not_eq_true] at hact
        simp only [hasActiveSession, hact, Bool.false_eq_true, if_false]
        refine ⟨?_, ?_⟩
        · show (a.sessions ++ [newPunchInSession now (decide (dist ≤ 1000))]).countP isOpenSession ≤ 1
          rw [List.countP_append]
          have h1 : a.sessions.countP isOpenSession = 0 := hcount
          simp [h1, newPunchInSession, isOpenSession]
        · exact h.2
  | pOut now =>
    cases st with
    | none => exact h
    | some a =>
      by_cases hemp : a.sessions.isEmpty
      · simp only [attStep, punchOut, hemp]
        simpa using h
      · by_cases hact : hasActiveSession a.sessions
        · simp only [attStep, punchOut]
          simp only [hemp, Bool.false_eq_true, if_false, hact, Bool.not_true, if_false]
          refine ⟨?_, h.2⟩
          show (updateFirst isOpenSession (closeSession now) a.sessions).countP isOpenSession ≤ 1
          calc (updateFirst isOpenSession (closeSession now) a.sessions).countP isOpenSession
              ≤ a.sessions.countP isOpenSession :=
                countP_updateFirst_le _ _ _ (fun x => rfl)
            _ ≤ 1 := h.1
        · simp only [attStep, punchOut]
          simp only [hemp, Bool.false_eq_true, if_false, hact, Bool.not_false, if_true]
          simpa using h
  | bStart now =>
    cases st with
    | none => exact h
    | some a =>
      by_cases hemp : a.sessions.isEmpty
      · simp only [attStep, breakStart, hemp]
        simpa using h
      · by_cases hact : hasActiveSession a.sessions
        · by_cases hbr : a.breaks.any isOpenBreak
          · simp only [attStep, breakStart]
            simp only [hemp, Bool.false_eq_true, if_false, hact, Bool.not_true, if_false, hbr,
              if_true]
            simpa using h
          · have hcount : a.breaks.countP isOpenBreak = 0 :=
              List.countP_eq_zero.mpr (fun b hb hpb =>
                absurd (List.any_eq_true.mpr ⟨b, hb, hpb⟩) hbr)
            simp only [attStep, breakStart]
            simp only [hemp, Bool.false_eq_true, if_false, hact, Bool.not_true, if_false, hbr,
              Bool.false_eq_true, if_false]
            refine ⟨h.1, ?_⟩
            show (a.breaks ++ [({ startTime := now, endTime := none, duration := 0 } : BreakRec)]).countP isOpenBreak ≤ 1
            rw [List.countP_append, hcount]
            simp [List.countP_cons, isOpenBreak]
        · simp only [attStep, breakStart]
          simp only [hemp, Bool.false_eq_true, if_false, hact, Bool.not_false, if_true]
          simpa using h
  | bEnd now =>
    cases st with
    | none => exact h
    | some a =>
      by_cases hbr : a.breaks.any isOpenBreak
      · simp only [attStep, breakEnd]
        simp only [hbr, Bool.not_true, if_false]
        refine ⟨h.1, ?_⟩
        exact le_trans (countP_updateFirst_le _ _ _ (fun x => rfl)) h.2
      · simp only [attStep, breakEnd]
        simp only [hbr, Bool.not_false, if_true]
        simpa using h

theorem attRun_inv_aux (ops : List AttOp) (st : Option AttendanceRecord) (h : attInv st) :
    attInv (List.foldl attStep st ops) := by
  induction ops generalizing st with
  | nil => exact h
  | cons op ops ih => exact ih (attStep st op) (attStep_inv st op h)

/-- C6, amended.  Every state reachable by punchIn / punchOut / breakStart /
breakEnd has at most one open session and at most one open break, and a break
can only be started while a session is open (break-start is a rejected no-op
otherwise); but an open break may outlive its session, because punch-out does
not close an ongoing break. -/
theorem c6_amended_invariant :
    (∀ ops : List AttOp, attInv (attRun ops)) ∧
    (∀ (st : Option AttendanceRecord) (now : ℤ),
      (∀ a, st = some a → hasActiveSession a.sessions = false) →
      attStep st (AttOp.bStart now) = st) := by
  constructor
  · intro ops
    exact attRun_inv_aux ops none trivial
  · intro st now hno
    cases st with
    | none => rfl
    | some a =>
      have hact : hasActiveSession a.sessions = false := hno a rfl
      by_cases hemp : a.sessions.isEmpty
      · simp only [attStep, breakStart, hemp]
        simp
      · simp only [attStep, breakStart]
        simp only [hemp, Bool.false_eq_true, if_false, hact, Bool.not_false, if_true]

/-- C6 amended, witness: the invariant holds after the counterexample trace,
and break-start with no record is a no-op. -/
theorem c6_amended_invariant_witness :
    attInv (attRun c6Trace) ∧ attStep none (AttOp.bStart 5) = none :=
  ⟨c6_amended_invariant.1 c6Trace,
    c6_amended_invariant.2 none 5 (fun a h => by cases h)⟩

/-- C7.  punch-out fails (record unchanged) exactly when no session is open:
NoPunchInRecord with no record or an empty session list, NoActiveSession when
all sessions are closed.  Otherwise it closes the first open session — check
out at now, isEarly and earlyMinutes measured against the 18:00 standard end —
recomputes the work summary over the sessions minus break time, and sets the
day status to present precisely when effectiveHours reaches 8, partial
otherwise; with at most one open session, no session remains open. -/
theorem c7_punchOut_spec (a : AttendanceRecord) (now : ℤ) :
    (punchOut none now = Except.error AttErr.noPunchInRecord) ∧
    (a.sessions = [] →
      punchOut (some a) now = Except.error AttErr.noPunchInRecord ∧
      attStep (some a) (AttOp.pOut now) = some a) ∧
    (a.sessions ≠ [] → hasActiveSession a.sessions = false →
      punchOut (some a) now = Except.error AttErr.noActiveSession ∧
      attStep (some a) (AttOp.pOut now) = some a) ∧
    (hasActiveSession a.sessions = true →
      punchOut (some a) now = Except.ok (punchOutRecord a now) ∧
      (punchOutRecord a now).sessions = updateFirst isOpenSession (closeSession now) a.sessions ∧
      (punchOutRecord a now).breaks = a.breaks ∧
      (punchOutRecord a now).workLocation = a.workLocation ∧
      (punchOutRecord a now).workSummary =
        calculateWorkSummary (punchOutRecord a now).sessions a.breaks ∧
      ((punchOutRecord a now).status = AttStatus.present ↔
        8 ≤ (punchOutRecord a now).workSummary.effectiveHours) ∧
      ((punchOutRecord a now).status = AttStatus.partialDay ↔
        ¬8 ≤ (punchOutRecord a now).workSummary.effectiveHours) ∧
      (openSessionCount a ≤ 1 → hasActiveSession (punchOutRecord a now).sessions = false) ∧
      ∀ s : Session, (closeSession now s).checkOut.map (fun c => c.time) = some now ∧
        (closeSession now s).checkOut.map (fun c => c.isEarly) =
          some (decide (now < standardEndMs)) ∧
        (closeSession now s).checkOut.map (fun c => c.earlyMinutes) =
          some (if now < standardEndMs then jsRound (((standardEndMs - now : ℤ) : ℚ) / 60000) else 0)) := by
  refine ⟨rfl, ?_, ?_, ?_⟩
  · intro hemp
    have hiemp : a.sessions.isEmpty = true := by simp [hemp]
    have herr : punchOut (some a) now = Except.error AttErr.noPunchInRecord := by
      simp only [punchOut, hiemp, if_true]
    refine ⟨herr, ?_⟩
    simp only [attStep]
    rw [herr]
  · intro hne hact
    have hiemp : a.sessions.isEmpty = false := by
      cases hs : a.sessions with
      | nil => exact absurd hs hne
      | cons x xs => rfl
    have herr : punchOut (some a) now = Except.error AttErr.noActiveSession := by
      simp only [punchOut, hiemp, Bool.false_eq_true, if_false, hact, Bool.not_false, if_true]
    refine ⟨herr, ?_⟩
    simp only [attStep]
    rw [herr]
  · intro hact
    have hiemp : a.sessions.isEmpty = false := by
      cases hs : a.sessions with
      | nil =>
        rw [hs] at hact
        exact absurd hact (by simp [hasActiveSession])
      | cons x xs => rfl
    have hok : punchOut (some a) now = Except.ok (punchOutRecord a now) := by
      simp only [punchOut, hiemp, Bool.false_eq_true, if_false, hact, Bool.not_true, if_false]
    have hstatus : (punchOutRecord a now).status =
        (if 8 ≤ (punchOutRecord a now).workSummary.effectiveHours then AttStatus.present
          else AttStatus.partialDay) := rfl
    refine ⟨hok, rfl, rfl, rfl, rfl, ?_, ?_, ?_, ?_⟩
    · rw [hstatus]
      split_ifs with h8 <;> simp [h8]
    · rw [hstatus]
      split_ifs with h8 <;> simp [h8]
    · intro hle
      have hcount := countP_updateFirst_of_any isOpenSession (closeSession now) a.sessions
        (fun x => rfl) hact
      have h0 : (updateFirst isOpenSession (closeSession now) a.sessions).countP
          isOpenSession = 0 := by
        have h1 : a.sessions.countP isOpenSession ≤ 1 := hle
        omega
      show (updateFirst isOpenSession (closeSession now) a.sessions).any isOpenSession = false
      cases hany : (updateFirst isOpenSession (closeSession now) a.sessions).any isOpenSession
      · rfl
      · obtain ⟨x, hx, hpx⟩ := List.any_eq_true.mp hany
        exact absurd hpx (List.countP_eq_zero.mp h0 x hx)
    · intro s
      refine ⟨rfl, rfl, ?_⟩
      simp only [closeSession, Option.map]
      by_cases he : now < standardEndMs <;> simp [he]

def recC7 : AttendanceRecord :=
  { sessions := [newPunchInSession 32400000 true], breaks := [],
    workSummary := calculateWorkSummary [newPunchInSession 32400000 true] [],
    status := AttStatus.present, workLocation := WorkLocation.office }

/-- C7, witness: a 9:00 punch-in record punched out at 17:40 succeeds, and its
status is present exactly when its effective hours reach 8. -/
theorem c7_punchOut_spec_witness :
    punchOut (some recC7) 63600000 = Except.ok (punchOutRecord recC7 63600000) ∧
    ((punchOutRecord recC7 63600000).status = AttStatus.present ↔
      8 ≤ (punchOutRecord recC7 63600000).workSummary.effectiveHours) :=
  ⟨((c7_punchOut_spec recC7 63600000).2.2.2 (by decide)).1,
    ((c7_punchOut_spec recC7 63600000).2.2.2 (by decide)).2.2.2.2.2.1⟩

/-- An attendance request on a day that already has a session never changes
workLocation, whatever coordinates it carries. -/
theorem attStep_workLocation (a : AttendanceRecord) (op : AttOp) (hne : a.sessions ≠ []) :
    (attStep (some a) op).map (fun r => r.workLocation) = some a.workLocation := by
  have hiemp : a.sessions.isEmpty = false := by
    cases hs : a.sessions with
    | nil => exact absurd hs hne
    | cons x xs => rfl
  cases op with
  | pIn now dist =>
    by_cases hact : hasActiveSession a.sessions
    · simp [attStep, punchIn, hact]
    · simp [attStep, punchIn, hact, hiemp]
  | pOut now =>
    by_cases hact : hasActiveSession a.sessions
    · simp [attStep, punchOut, hiemp, hact, punchOutRecord]
    · simp [attStep, punchOut, hiemp, hact]
  | bStart now =>
    by_cases hact : hasActiveSession a.sessions
    · by_cases hbr : a.breaks.any isOpenBreak
      · simp [attStep, breakStart, hiemp, hact, hbr]
      · simp [attStep, breakStart, hiemp, hact, hbr]
    · simp [attStep, breakStart, hiemp, hact]
  | bEnd now =>
    by_cases hbr : a.breaks.any isOpenBreak
    · simp [attStep, breakEnd, hbr]
    · simp [attStep, breakEnd, hbr]

/-- C9.  On the first check-in of the day the GPS classifier output fixes
workLocation: office exactly when the distance is within 1000 m, home
otherwise, with the withinRadius verdict stored on the session; on any later
check-in (and any other attendance request) workLocation keeps its stored
value no matter what coordinate or distance is submitted. -/
theorem c9_workLocation_first_checkin (now : ℤ) (d : ℚ) :
    (∀ a2, punchIn none now d = Except.ok a2 →
      (a2.workLocation = WorkLocation.office ↔ d ≤ 1000) ∧
      a2.sessions = [newPunchInSession now (decide (d ≤ 1000))]) ∧
    (∀ a a2, a.sessions ≠ [] → punchIn (some a) now d = Except.ok a2 →
      a2.workLocation = a.workLocation) ∧
    (∀ (a : AttendanceRecord) (op : AttOp), a.sessions ≠ [] →
      (attStep (some a) op).map (fun r => r.workLocation) = some a.workLocation) := by
  refine ⟨?_, ?_, fun a op hne => attStep_workLocation a op hne⟩
  · intro a2 hok
    by_cases hd : d ≤ 1000
    · simp [punchIn, hd] at hok
      cases hok
      constructor
      · simp [hd]
      · simp [hd]
    · simp [punchIn, hd] at hok
      cases hok
      constructor
      · constructor
        · intro hx
          cases hx
        · intro hx
          exact absurd hx hd
      · simp [hd]
  · intro a a2 hne hok
    have hiemp : a.sessions.isEmpty = false := by
      cases hs : a.sessions with
      | nil => exact absurd hs hne
      | cons x xs => rfl
    by_cases hact : hasActiveSession a.sessions
    · simp [punchIn, hact] at hok
    · simp [punchIn, hact, hiemp] at hok
      cases hok
      rfl

def recC9 : AttendanceRecord :=
  { sessions := [newPunchInSession 0 true], breaks := [],
    workSummary := calculateWorkSummary [newPunchInSession 0 true] [],
    status := AttStatus.present, workLocation := WorkLocation.office }

/-- C9, witness: a first check-in 50 m from the office yields workLocation
office with the within-radius verdict stored on the session. -/
theorem c9_workLocation_first_checkin_witness :
    (recC9.workLocation = WorkLocation.office ↔ (50 : ℚ) ≤ 1000) ∧
    recC9.sessions = [newPunchInSession 0 (decide ((50 : ℚ) ≤ 1000))] :=
  (c9_workLocation_first_checkin 0 50).1 recC9 (by rfl)

end CMS
